import Mathlib

/-
  Verification development for the Genie chat service (src/app.py).

  The adapter call_gemini and the /api/chat handler are shallowly embedded:
  Python runtime values become the inductive PyVal, attribute access that may
  raise becomes Except-valued lookup, the module-level globals (the SDK
  module, the API key, the default model, the CONVERSATIONS store) become an
  explicit Globals record threaded through the functions, and each of the
  three SDK call shapes is a function field of GenaiClient that may raise.
-/

set_option autoImplicit false

namespace Genie

/-- Python-like runtime values. An object carries a list of named attributes,
each of which either yields a value or raises (modelling a raising accessor;
an attribute missing from the list models AttributeError), together with the
string the object renders to under str(). -/
inductive PyVal where
  | pnone : PyVal
  | pstr : String → PyVal
  | pdict : List (String × PyVal) → PyVal
  | plist : List PyVal → PyVal
  | pobj : List (String × Except String PyVal) → String → PyVal

/-- A single-quote character, used by the Python repr of strings. -/
def sq : String := String.singleton (Char.ofNat 39)

mutual

/-- Python repr() of a value (elements of containers render with repr). -/
def pyRepr : PyVal → String
  | .pnone => "None"
  | .pstr s => sq ++ s ++ sq
  | .pdict es => "\x7b" ++ pyReprEntries es ++ "\x7d"
  | .plist xs => "[" ++ pyReprItems xs ++ "]"
  | .pobj _ r => r

/-- Comma-separated repr of dict entries. -/
def pyReprEntries : List (String × PyVal) → String
  | [] => ""
  | [(k, v)] => sq ++ k ++ sq ++ ": " ++ pyRepr v
  | (k, v) :: rest => sq ++ k ++ sq ++ ": " ++ pyRepr v ++ ", " ++ pyReprEntries rest

/-- Comma-separated repr of list items. -/
def pyReprItems : List PyVal → String
  | [] => ""
  | [v] => pyRepr v
  | v :: rest => pyRepr v ++ ", " ++ pyReprItems rest

end

/-- Python str() of a value: a string renders as itself, anything else as its
repr. -/
def pyStr : PyVal → String
  | .pstr s => s
  | v => pyRepr v

/-- Python truthiness: None, the empty string and empty containers are falsy,
objects are truthy. -/
def truthy : PyVal → Bool
  | .pnone => false
  | .pstr s => !s.isEmpty
  | .pdict es => !es.isEmpty
  | .plist xs => !xs.isEmpty
  | .pobj _ _ => true

/-- Whether the value is Python None (the test reply is None in api_chat). -/
def pyIsNone : PyVal → Bool
  | .pnone => true
  | _ => false

/-- Whether the value is a Python str (isinstance(v, str)). -/
def isStrInstance : PyVal → Bool
  | .pstr _ => true
  | _ => false

mutual

/-- Model of json.dumps: serializes None, strings, dicts and lists; raises
TypeError on a bare object. -/
def jsonDumps : PyVal → Except String String
  | .pnone => .ok "null"
  | .pstr s => .ok ("\"" ++ s ++ "\"")
  | .pdict es =>
    match jsonEntries es with
    | .ok body => .ok ("\x7b" ++ body ++ "\x7d")
    | .error e => .error e
  | .plist xs =>
    match jsonItems xs with
    | .ok body => .ok ("[" ++ body ++ "]")
    | .error e => .error e
  | .pobj _ r => .error ("Object of type " ++ r ++ " is not JSON serializable")

/-- json.dumps of the entries of a dict. -/
def jsonEntries : List (String × PyVal) → Except String String
  | [] => .ok ""
  | [(k, v)] =>
    match jsonDumps v with
    | .ok s => .ok ("\"" ++ k ++ "\": " ++ s)
    | .error e => .error e
  | (k, v) :: rest =>
    match jsonDumps v, jsonEntries rest with
    | .ok s, .ok srest => .ok ("\"" ++ k ++ "\": " ++ s ++ ", " ++ srest)
    | .error e, _ => .error e
    | _, .error e => .error e

/-- json.dumps of the items of a list. -/
def jsonItems : List PyVal → Except String String
  | [] => .ok ""
  | [v] => jsonDumps v
  | v :: rest =>
    match jsonDumps v, jsonItems rest with
    | .ok s, .ok srest => .ok (s ++ ", " ++ srest)
    | .error e, _ => .error e
    | _, .error e => .error e

end

/-- Look up the named attribute of a value: only objects expose attributes
relevant to the adapter; result none models AttributeError/absence, and a
some (.error m) entry models an accessor that raises. -/
def lookupAttr : PyVal → String → Option (Except String PyVal)
  | .pobj attrs _, name => attrs.lookup name
  | _, _ => none

/-- Model of hasattr: false when the attribute is absent, propagates a raising
accessor (Python hasattr suppresses only AttributeError). -/
def pyHasattr (v : PyVal) (name : String) : Except String Bool :=
  match lookupAttr v name with
  | none => .ok false
  | some (.error e) => .error e
  | some (.ok _) => .ok true

/-- Model of plain attribute access v.name: absence raises AttributeError. -/
def pyGetattr (v : PyVal) (name : String) : Except String PyVal :=
  match lookupAttr v name with
  | none => .error ("AttributeError: " ++ name)
  | some r => r

/-- Model of getattr(v, name, None): absence yields the None default, a
raising non-AttributeError accessor still propagates. -/
def pyGetattrDefault (v : PyVal) (name : String) : Except String (Option PyVal) :=
  match lookupAttr v name with
  | none => .ok none
  | some (.error e) => .error e
  | some (.ok x) => .ok (some x)

/-- Model of dict.get: first entry with the given key, if any. -/
def dictGet (es : List (String × PyVal)) (k : String) : Option PyVal :=
  es.lookup k

/-- The runtime surface of the loaded google.generativeai module, as probed by
call_gemini: each of the three call shapes is present (some) or absent (none);
an invoked shape may return a response value or raise. chat_create models
genai.chat.create applied to (model, messages, optional conversation keyword),
responses_create models genai.responses.create applied to (model, input), and
generate models genai.generate applied to (model, input). -/
structure GenaiClient where
  chat_create : Option (String → PyVal → Option String → Except String PyVal)
  responses_create : Option (String → String → Except String PyVal)
  generate : Option (String → String → Except String PyVal)

/-- A recorded turn of a conversation: the dict appended to CONVERSATIONS. -/
structure Turn where
  role : String
  text : PyVal

/-- The in-memory CONVERSATIONS store: conversation id to ordered turns, in
insertion order. -/
abbrev ConvStore := List (String × List Turn)

/-- The module-level mutable/configured state of app.py that the handlers can
read or write: the imported SDK module (None when the import failed), the
GOOGLE_API_KEY environment value, the DEFAULT_MODEL name and the
CONVERSATIONS store. -/
structure Globals where
  genai : Option GenaiClient
  google_api_key : Option String
  default_model : String
  conversations : ConvStore

/-- Ordered-fallback-chain shapes, for the trace of attempted provider calls:
s1 is chat.create, s2 is responses.create, s3 is generate. -/
inductive Shape where
  | s1 : Shape
  | s2 : Shape
  | s3 : Shape
deriving DecidableEq

/-- The messages list built by shape 1 (line 135 of app.py). -/
def mkMessages (prompt : String) : PyVal :=
  .plist [.pdict [("author", .pstr "user"), ("content", .pstr prompt)]]

/-- The raw value returned with a None reply on failure (line 184/187). -/
def errDict (msg : String) : PyVal :=
  .pdict [("error", .pstr msg)]

/-- The fixed no-SDK failure reason of line 187 of app.py. -/
def sdkUnavailableMsg : String :=
  "Generative AI SDK unavailable or API key not set."

/-- Lines 146: json.dumps(resp) for a dict-shaped shape-1 response. -/
def shape1dictDumps (es : List (String × PyVal)) : Except String PyVal :=
  match jsonDumps (.pdict es) with
  | .error e => .error e
  | .ok s => .ok (.pstr s)

/-- Line 146, second operand of or: resp.get(output) when truthy, else the
json.dumps fallback. -/
def shape1dictOutput (es : List (String × PyVal)) : Except String PyVal :=
  match dictGet es "output" with
  | some v => if truthy v then .ok v else shape1dictDumps es
  | none => shape1dictDumps es

/-- Line 146: resp.get(content) or resp.get(output) or json.dumps(resp). -/
def shape1dictExtract (es : List (String × PyVal)) : Except String PyVal :=
  match dictGet es "content" with
  | some v => if truthy v then .ok v else shape1dictOutput es
  | none => shape1dictOutput es

/-- Lines 144-148: the elif/else branches of shape-1 extraction, taken when
resp has no usable last.content. -/
def shape1noLast (resp : PyVal) : Except String PyVal :=
  match resp with
  | .pdict es => shape1dictExtract es
  | _ => .ok (.pstr (pyStr resp))

/-- Lines 141-148: extract the reply from a shape-1 response. -/
def shape1extract (resp : PyVal) : Except String PyVal :=
  match pyHasattr resp "last" with
  | .error e => .error e
  | .ok false => shape1noLast resp
  | .ok true =>
    match pyGetattr resp "last" with
    | .error e => .error e
    | .ok lastv =>
      match pyHasattr lastv "content" with
      | .error e => .error e
      | .ok false => shape1noLast resp
      | .ok true =>
        match pyGetattr resp "last" with
        | .error e => .error e
        | .ok lastv2 => pyGetattr lastv2 "content"

/-- Lines 134-149: the chat.create shape, invoked with the conversation
keyword only when conversation_id is truthy; any raise propagates to the
enclosing except of call_gemini. -/
def shape1 (f : String → PyVal → Option String → Except String PyVal)
    (prompt : String) (conversation_id : Option String) (model_name : String) :
    Except String (PyVal × PyVal) :=
  let messages := mkMessages prompt
  let call :=
    match conversation_id with
    | some cid =>
      if cid ≠ "" then f model_name messages (some cid) else f model_name messages none
    | none => f model_name messages none
  match call with
  | .error e => .error e
  | .ok resp =>
    match shape1extract resp with
    | .error e => .error e
    | .ok reply => .ok (reply, resp)

/-- Line 161: getattr(p, content, None) or p, for one part of a shape-2
output list. -/
def shape2part (p : PyVal) : Except String PyVal :=
  match pyGetattrDefault p "content" with
  | .error e => .error e
  | .ok (some v) => .ok (if truthy v then v else p)
  | .ok none => .ok p

/-- Line 161: the list comprehension over resp.output, left to right,
aborting at the first raise. -/
def shape2parts : List PyVal → Except String (List PyVal)
  | [] => .ok []
  | p :: rest =>
    match shape2part p with
    | .error e => .error e
    | .ok v =>
      match shape2parts rest with
      | .error e => .error e
      | .ok vs => .ok (v :: vs)

/-- Lines 158-164: the body of the inner try of shape 2, producing the text
or raising into the inner except. -/
def shape2innerExtract (resp : PyVal) : Except String String :=
  match pyGetattr resp "output" with
  | .error e => .error e
  | .ok (.plist items) =>
    match shape2parts items with
    | .error e => .error e
    | .ok parts => .ok (String.intercalate "\n" ((parts.filter truthy).map pyStr))
  | .ok out => .ok (pyStr out)

/-- Lines 152-169: the responses.create shape; note that a raise inside the
inner try is caught there and replaced by str(resp) (lines 165-166), while a
raise from the call itself or from hasattr(resp, output) propagates. -/
def shape2 (f : String → String → Except String PyVal)
    (prompt : String) (model_name : String) : Except String (PyVal × PyVal) :=
  match f model_name prompt with
  | .error e => .error e
  | .ok resp =>
    match pyHasattr resp "output" with
    | .error e => .error e
    | .ok true =>
      match shape2innerExtract resp with
      | .ok t => .ok (.pstr t, resp)
      | .error _ => .ok (.pstr (pyStr resp), resp)
    | .ok false => .ok (.pstr (pyStr resp), resp)

/-- Lines 171-181: the bare generate shape. -/
def shape3 (f : String → String → Except String PyVal)
    (prompt : String) (model_name : String) : Except String (PyVal × PyVal) :=
  match f model_name prompt with
  | .error e => .error e
  | .ok resp =>
    match pyHasattr resp "output" with
    | .error e => .error e
    | .ok true =>
      match pyGetattr resp "output" with
      | .error e => .error e
      | .ok out =>
        if isStrInstance out then .ok (out, resp)
        else
          match jsonDumps out with
          | .error e => .error e
          | .ok j => .ok (.pstr j, resp)
    | .ok false => .ok (.pstr (pyStr resp), resp)

/-- Lines 183-184: the enclosing except Exception of call_gemini, converting
any raise that escapes the attempted shape into (None, error dict). -/
def runShape (r : Except String (PyVal × PyVal)) : PyVal × PyVal :=
  match r with
  | .ok pr => pr
  | .error e => (.pnone, errDict e)

/-- Lines 128-187 of call_gemini, as a function of the loaded SDK module:
the capability probe selects the first exposed shape (the trace records which
shape was invoked over the network); no exposed shape, or no module, yields
the fixed failure of line 187. -/
def call_gemini_core (genai : Option GenaiClient) (prompt : String)
    (conversation_id : Option String) (model_name : String) :
    (PyVal × PyVal) × List Shape :=
  match genai with
  | none => ((.pnone, errDict sdkUnavailableMsg), [])
  | some client =>
    match client.chat_create, client.responses_create, client.generate with
    | some f, _, _ => (runShape (shape1 f prompt conversation_id model_name), [.s1])
    | none, some f, _ => (runShape (shape2 f prompt model_name), [.s2])
    | none, none, some f => (runShape (shape3 f prompt model_name), [.s3])
    | none, none, none => ((.pnone, errDict sdkUnavailableMsg), [])

/-- call_gemini (lines 121-187): reads the genai global, touches no other
global; returns ((reply, raw), attempted shapes) together with the
module-level state after the call. -/
def call_gemini (g : Globals) (prompt : String) (conversation_id : Option String)
    (model_name : String) : ((PyVal × PyVal) × List Shape) × Globals :=
  (call_gemini_core g.genai prompt conversation_id model_name, g)

/-- The characters Python str.strip() removes by default. -/
def pyIsSpace (c : Char) : Bool :=
  c = ' ' || c = '\t' || c = '\n' || c = '\r' || c = '\x0b' || c = '\x0c'

/-- Python str.strip() on the message (line 201): drop whitespace from both
ends. -/
def pyStrip (s : String) : String :=
  String.mk (((s.data.dropWhile pyIsSpace).reverse.dropWhile pyIsSpace).reverse)

/-- Line 206: data.get(conversation_id) or the synthesized conv-timestamp id
(now stands for datetime.utcnow().isoformat()). -/
def effectiveCid (dcid : Option String) (now : String) : String :=
  match dcid with
  | some s => if s ≠ "" then s else "conv-" ++ now
  | none => "conv-" ++ now

/-- Lines 211-212: the reason formatted into the 500 body, via str() of the
error field of a dict-shaped raw, the literal None rendering when the field is
absent, and the unknown-error fallback otherwise. -/
def geminiErrReason : PyVal → String
  | .pdict es =>
    match dictGet es "error" with
    | some v => pyStr v
    | none => "None"
  | _ => "unknown error"

/-- CONVERSATIONS.setdefault(k, []).append(t): append to the sequence of key
k, creating it at the end of the store when absent. -/
def appendTurn (s : ConvStore) (k : String) (t : Turn) : ConvStore :=
  match s with
  | [] => [(k, [t])]
  | (k0, ts) :: rest =>
    if k0 = k then (k0, ts ++ [t]) :: rest else (k0, ts) :: appendTurn rest k t

/-- Lookup of a conversation in the store. -/
def lookupStore : ConvStore → String → Option (List Turn)
  | [], _ => none
  | (k0, ts) :: rest, k => if k0 = k then some ts else lookupStore rest k

/-- The observable outcome of one POST /api/chat request: HTTP status, JSON
body, module-level state afterwards, whether call_gemini was invoked, and the
shapes that invocation attempted. -/
structure ApiOut where
  status : Nat
  body : PyVal
  g : Globals
  adapterCalled : Bool
  shapes : List Shape

/-- Projection of the reply field out of a 200 body. -/
def replyField : PyVal → PyVal
  | .pdict (("reply", r) :: _) => r
  | _ => .pnone

/-- api_chat (lines 198-219): validate the trimmed message, call the adapter,
and on success append the user turn then the assistant turn under the
effective conversation id. -/
def api_chat (g : Globals) (now : String) (data_message : Option String)
    (data_conversation_id : Option String) : ApiOut :=
  let message := pyStrip (data_message.getD "")
  if message = "" then
    ⟨400, .pdict [("error", .pstr "no message provided")], g, false, []⟩
  else
    let conversation_id := effectiveCid data_conversation_id now
    let res := call_gemini g message (some conversation_id) g.default_model
    let reply := res.1.1.1
    let raw := res.1.1.2
    let g1 := res.2
    if pyIsNone reply then
      ⟨500, .pdict [("error", .pstr ("Gemini request failed: " ++ geminiErrReason raw))],
        g1, true, res.1.2⟩
    else
      ⟨200, .pdict [("reply", reply)],
        ⟨g1.genai, g1.google_api_key, g1.default_model,
          appendTurn (appendTurn g1.conversations conversation_id ⟨"user", .pstr message⟩)
            conversation_id ⟨"assistant", reply⟩⟩,
        true, res.1.2⟩

/-- Modelled from the spec: the echo variant of POST /chat, whose source file
is not under src/ (only app.py is); section 6 of the spec gives body
(message: string) to (reply: You said: + message), or the fixed please-send
reply when the message is absent or empty. -/
def echo_chat (message : Option String) : PyVal :=
  match message with
  | some m =>
    if m ≠ "" then .pdict [("reply", .pstr ("You said: " ++ m))]
    else .pdict [("reply", .pstr "Please send me a message.")]
  | none => .pdict [("reply", .pstr "Please send me a message.")]

/-- With no loaded SDK module the adapter core reports the fixed failure and
attempts no shape. -/
theorem call_core_none (p : String) (cid : Option String) (m : String) :
    call_gemini_core none p cid m = ((.pnone, errDict sdkUnavailableMsg), []) := rfl

/-- When chat.create is exposed, the adapter core runs exactly shape 1. -/
theorem call_core_shape1 (c : GenaiClient)
    (f : String → PyVal → Option String → Except String PyVal)
    (hf : c.chat_create = some f) (p : String) (cid : Option String) (m : String) :
    call_gemini_core (some c) p cid m = (runShape (shape1 f p cid m), [Shape.s1]) := by
  obtain ⟨cc, rc, gn⟩ := c
  cases hf
  rfl

/-- When chat.create is absent and responses.create is exposed, the adapter
core runs exactly shape 2. -/
theorem call_core_shape2 (c : GenaiClient) (f : String → String → Except String PyVal)
    (h1 : c.chat_create = none) (hf : c.responses_create = some f)
    (p : String) (cid : Option String) (m : String) :
    call_gemini_core (some c) p cid m = (runShape (shape2 f p m), [Shape.s2]) := by
  obtain ⟨cc, rc, gn⟩ := c
  cases h1
  cases hf
  rfl

/-- When only generate is exposed, the adapter core runs exactly shape 3. -/
theorem call_core_shape3 (c : GenaiClient) (f : String → String → Except String PyVal)
    (h1 : c.chat_create = none) (h2 : c.responses_create = none) (hf : c.generate = some f)
    (p : String) (cid : Option String) (m : String) :
    call_gemini_core (some c) p cid m = (runShape (shape3 f p m), [Shape.s3]) := by
  obtain ⟨cc, rc, gn⟩ := c
  cases h1
  cases h2
  cases hf
  rfl

/-- Appending a turn under key k puts it at the end of the sequence of k,
creating the sequence when absent. -/
theorem lookupStore_appendTurn_self (s : ConvStore) (k : String) (t : Turn) :
    lookupStore (appendTurn s k t) k = some ((lookupStore s k).getD [] ++ [t]) := by
  induction s with
  | nil => simp [appendTurn, lookupStore]
  | cons hd tl ih =>
    obtain ⟨k0, ts⟩ := hd
    by_cases h : k0 = k
    · subst h
      simp [appendTurn, lookupStore]
    · simp [appendTurn, lookupStore, h, ih]

/-- Appending a turn under key k leaves every other key of the store
untouched. -/
theorem lookupStore_appendTurn_other (s : ConvStore) (k k2 : String) (t : Turn)
    (h : k2 ≠ k) :
    lookupStore (appendTurn s k t) k2 = lookupStore s k2 := by
  induction s with
  | nil =>
    have hne : ¬ k = k2 := fun hh => h hh.symm
    simp [appendTurn, lookupStore, hne]
  | cons hd tl ih =>
    obtain ⟨k0, ts⟩ := hd
    by_cases hk : k0 = k
    · subst hk
      have hne : ¬ k0 = k2 := fun hh => h hh.symm
      simp [appendTurn, lookupStore, hne]
    · simp [appendTurn, lookupStore, hk, ih]

/-- C1: for every non-empty prompt, if the client module exposes chat.create
then call_gemini invokes exactly shape 1 (the trace is [s1], so neither the
responses shape nor the bare-generate shape is attempted) and returns what
shape 1 extracted, leaving the globals untouched. -/
theorem c1_shape1_dispatch (g : Globals) (c : GenaiClient)
    (f : String → PyVal → Option String → Except String PyVal)
    (prompt : String) (cid : Option String) (m : String)
    (_hp : prompt ≠ "") (hg : g.genai = some c) (hf : c.chat_create = some f) :
    call_gemini g prompt cid m = ((runShape (shape1 f prompt cid m), [Shape.s1]), g) := by
  unfold call_gemini
  rw [hg, call_core_shape1 c f hf]

/-- Shape-1 call of the C1 witness client. -/
def fW1 : String → PyVal → Option String → Except String PyVal :=
  fun _ _ _ => .ok (.pstr "r1")

/-- C1 witness client. -/
def cW1 : GenaiClient := ⟨some fW1, none, none⟩

/-- C1 witness globals. -/
def gW1 : Globals := ⟨some cW1, some "k", "m", []⟩

/-- C1 witness: the dispatch theorem applied at a concrete shape-1 client. -/
theorem c1_shape1_dispatch_witness :
    ("hi" : String) ≠ "" ∧
    call_gemini gW1 "hi" none "m" = ((runShape (shape1 fW1 "hi" none "m"), [Shape.s1]), gW1) :=
  ⟨by decide, c1_shape1_dispatch gW1 cW1 fW1 "hi" none "m" (by decide) rfl rfl⟩

/-- C8: call_gemini mutates no local program state: the conversation store
and all module-level configuration are returned exactly as they were, for
every input and client. -/
theorem c8_no_local_mutation (g : Globals) (prompt : String)
    (cid : Option String) (m : String) :
    (call_gemini g prompt cid m).2 = g := rfl

/-- C3 (amended): if the SDK module is not loaded (the import failed and
genai is None), call_gemini returns reply None with raw the error dict whose
reason is exactly the fixed SDK-unavailable string, attempting no shape. -/
theorem c3_sdk_missing (g : Globals) (prompt : String) (cid : Option String)
    (m : String) (hg : g.genai = none) :
    call_gemini g prompt cid m = (((.pnone, errDict sdkUnavailableMsg), []), g) := by
  unfold call_gemini
  rw [hg]
  rfl

/-- C3 witness globals: no SDK module loaded. -/
def gNoSdk : Globals := ⟨none, some "k", "m", []⟩

/-- C3 witness: the amended theorem applied with the SDK module absent. -/
theorem c3_sdk_missing_witness :
    call_gemini gNoSdk "hi" none "m" = (((.pnone, errDict sdkUnavailableMsg), []), gNoSdk) :=
  c3_sdk_missing gNoSdk "hi" none "m" rfl

/-- Shape-1 call of the C3 counterexample client. -/
def fKeyless : String → PyVal → Option String → Except String PyVal :=
  fun _ _ _ => .ok (.pstr "ok")

/-- C3 counterexample globals: SDK loaded, API key not set. -/
def gKeyless : Globals := ⟨some ⟨some fKeyless, none, none⟩, none, "m", []⟩

/-- C3 counterexample: with the API key unset but the SDK module loaded and
exposing chat.create, call_gemini still attempts shape 1 and returns its
reply, instead of the claimed fixed error without attempting any shape
(call_gemini never consults GOOGLE_API_KEY). -/
theorem c3_counterexample :
    gKeyless.google_api_key = none ∧
    (call_gemini gKeyless "hi" none "m").1.2 = [Shape.s1] ∧
    (call_gemini gKeyless "hi" none "m").1.1.1 = .pstr "ok" :=
  ⟨rfl, rfl, rfl⟩

/-- A shape-2 response part whose content accessor raises. -/
def partRaise : PyVal := .pobj [("content", .error "boom")] "part0"

/-- A shape-2 response whose output list contains the raising part. -/
def respInner : PyVal := .pobj [("output", .ok (.plist [partRaise]))] "badresp"

/-- Shape-2 call of the C2 counterexample client. -/
def fInner : String → String → Except String PyVal := fun _ _ => .ok respInner

/-- A generate shape that would succeed, present to make the never-attempted
part of C2 observable. -/
def fGen2 : String → String → Except String PyVal := fun _ _ => .ok (.pstr "g3")

/-- C2 counterexample globals. -/
def gInner : Globals := ⟨some ⟨none, some fInner, some fGen2⟩, some "k", "m", []⟩

/-- C2 counterexample: when the client raises inside the tolerant list
parsing of shape 2 (the getattr(p, content, None) of a part raises), the
inner except of lines 165-166 swallows the raise and call_gemini returns the
stringified whole response as a successful reply, not an error result
containing the raised message. Shape 3 is still not attempted. -/
theorem c2_counterexample :
    call_gemini gInner "hi" none "m"
      = (((.pstr "badresp", respInner), [Shape.s2]), gInner) ∧
    pyIsNone (call_gemini gInner "hi" none "m").1.1.1 = false :=
  ⟨rfl, rfl⟩

/-- C2 (amended): when the client exposes responses.create (and not
chat.create) and a raise escapes shape 2 — from the call itself or from
accessing the output attribute, that is, outside the inner tolerant-parsing
handler — call_gemini returns reply None with raw the error dict containing
the raised message, and shape 3 is never attempted (the trace is [s2]). -/
theorem c2_shape2_raise (g : Globals) (c : GenaiClient)
    (f : String → String → Except String PyVal) (prompt : String)
    (cid : Option String) (m : String) (e : String)
    (hg : g.genai = some c) (h1 : c.chat_create = none)
    (hf : c.responses_create = some f) (hr : shape2 f prompt m = .error e) :
    call_gemini g prompt cid m = (((.pnone, errDict e), [Shape.s2]), g) := by
  unfold call_gemini
  rw [hg, call_core_shape2 c f h1 hf, hr]
  rfl

/-- Shape-2 call of the C2 witness client: the invocation itself raises. -/
def fRaiseW : String → String → Except String PyVal := fun _ _ => .error "boom2"

/-- C2 witness client. -/
def cRW : GenaiClient := ⟨none, some fRaiseW, some fGen2⟩

/-- C2 witness globals. -/
def gRW : Globals := ⟨some cRW, some "k", "m", []⟩

/-- C2 witness: the amended theorem applied at a client whose shape-2 call
raises. -/
theorem c2_shape2_raise_witness :
    shape2 fRaiseW "hi" "m" = .error "boom2" ∧
    call_gemini gRW "hi" none "m" = (((.pnone, errDict "boom2"), [Shape.s2]), gRW) :=
  ⟨rfl, c2_shape2_raise gRW cRW fRaiseW "hi" none "m" "boom2" rfl rfl rfl rfl⟩

/-- A shape-1 response whose last.content is a list. -/
def last10 : PyVal := .pobj [("content", .ok (.plist [.pstr "x"]))] "last10"

/-- The C10 counterexample response object. -/
def resp10 : PyVal := .pobj [("last", .ok last10)] "resp10"

/-- Shape-1 call of the C10 counterexample client. -/
def f10 : String → PyVal → Option String → Except String PyVal := fun _ _ _ => .ok resp10

/-- C10 counterexample globals. -/
def g10 : Globals := ⟨some ⟨some f10, none, none⟩, some "k", "m", []⟩

/-- C10 counterexample: a shape-1 client whose last.content is a list makes
call_gemini return a reply that is neither a string nor None, refuting the
claimed shape of the returned pair. -/
theorem c10_counterexample :
    (call_gemini g10 "hi" none "m").1.1.1 = .plist [.pstr "x"] ∧
    isStrInstance (call_gemini g10 "hi" none "m").1.1.1 = false ∧
    pyIsNone (call_gemini g10 "hi" none "m").1.1.1 = false :=
  ⟨rfl, rfl, rfl⟩

/-- C10 (amended): call_gemini never propagates a client exception: whichever
shape the capability probe selects, a raise escaping that shape is converted
into reply None with raw the error dict carrying the raised message, later
shapes left unattempted; on success the reply is whatever value extraction
produced, which shape 1 may deliver as a non-string or None. -/
theorem c10_raise_converted (g : Globals) (c : GenaiClient) (prompt : String)
    (cid : Option String) (m : String) (hg : g.genai = some c) :
    (∀ f e, c.chat_create = some f → shape1 f prompt cid m = .error e →
        call_gemini g prompt cid m = (((.pnone, errDict e), [Shape.s1]), g)) ∧
    (∀ f e, c.chat_create = none → c.responses_create = some f →
        shape2 f prompt m = .error e →
        call_gemini g prompt cid m = (((.pnone, errDict e), [Shape.s2]), g)) ∧
    (∀ f e, c.chat_create = none → c.responses_create = none → c.generate = some f →
        shape3 f prompt m = .error e →
        call_gemini g prompt cid m = (((.pnone, errDict e), [Shape.s3]), g)) := by
  refine ⟨?_, ?_, ?_⟩
  · intro f e hf hr
    unfold call_gemini
    rw [hg, call_core_shape1 c f hf, hr]
    rfl
  · intro f e h1 hf hr
    unfold call_gemini
    rw [hg, call_core_shape2 c f h1 hf, hr]
    rfl
  · intro f e h1 h2 hf hr
    unfold call_gemini
    rw [hg, call_core_shape3 c f h1 h2 hf, hr]
    rfl

/-- Shape-2 call of the C10 witness client. -/
def fRaise10 : String → String → Except String PyVal := fun _ _ => .error "boom3"

/-- C10 witness client. -/
def cR10 : GenaiClient := ⟨none, some fRaise10, none⟩

/-- C10 witness globals. -/
def gR10 : Globals := ⟨some cR10, some "k", "m", []⟩

/-- C10 witness: the amended theorem applied at a raising shape-2 client. -/
theorem c10_raise_converted_witness :
    call_gemini gR10 "hi" none "m" = (((.pnone, errDict "boom3"), [Shape.s2]), gR10) :=
  (c10_raise_converted gR10 cR10 "hi" none "m" rfl).2.1 fRaise10 "boom3" rfl rfl rfl

/-- C4: for a non-empty prompt and a client exposing only generate, the
adapter attempts exactly shape 3 (shapes 1 and 2 make no network call: the
trace is [s3]) and extracts the text per the three cases of lines 175-181:
the output attribute itself when it is a string, its JSON serialization when
it is present but not a string, and str of the whole response when output is
absent. -/
theorem c4_generate_only (g : Globals) (c : GenaiClient)
    (f : String → String → Except String PyVal) (prompt : String)
    (cid : Option String) (m : String) (resp : PyVal)
    (_hp : prompt ≠ "") (hg : g.genai = some c) (h1 : c.chat_create = none)
    (h2 : c.responses_create = none) (hf : c.generate = some f)
    (hr : f m prompt = .ok resp) :
    (call_gemini g prompt cid m).1.2 = [Shape.s3] ∧
    (∀ s, lookupAttr resp "output" = some (.ok (.pstr s)) →
        (call_gemini g prompt cid m).1.1.1 = .pstr s) ∧
    (∀ v j, lookupAttr resp "output" = some (.ok v) → isStrInstance v = false →
        jsonDumps v = .ok j → (call_gemini g prompt cid m).1.1.1 = .pstr j) ∧
    (lookupAttr resp "output" = none →
        (call_gemini g prompt cid m).1.1.1 = .pstr (pyStr resp)) := by
  have hd : call_gemini g prompt cid m = ((runShape (shape3 f prompt m), [Shape.s3]), g) := by
    unfold call_gemini
    rw [hg, call_core_shape3 c f h1 h2 hf]
  refine ⟨by rw [hd], ?_, ?_, ?_⟩
  · intro s hs
    rw [hd]
    simp [shape3, hr, pyHasattr, pyGetattr, hs, isStrInstance, runShape]
  · intro v j hv hstr hj
    rw [hd]
    simp [shape3, hr, pyHasattr, pyGetattr, hv, hstr, hj, runShape]
  · intro hnone
    rw [hd]
    simp [shape3, hr, pyHasattr, hnone, runShape]

/-- Generate call of the C4 witness client: a response whose output is the
string out-text. -/
def fW4 : String → String → Except String PyVal :=
  fun _ _ => .ok (.pobj [("output", .ok (.pstr "out-text"))] "resp4")

/-- C4 witness client, exposing only generate. -/
def cW4 : GenaiClient := ⟨none, none, some fW4⟩

/-- C4 witness globals. -/
def gW4 : Globals := ⟨some cW4, some "k", "m", []⟩

/-- C4 witness: the generate-only theorem applied at a concrete client whose
response carries a string output. -/
theorem c4_generate_only_witness :
    (call_gemini gW4 "hi" none "m").1.2 = [Shape.s3] ∧
    (call_gemini gW4 "hi" none "m").1.1.1 = .pstr "out-text" :=
  ⟨(c4_generate_only gW4 cW4 fW4 "hi" none "m" (.pobj [("output", .ok (.pstr "out-text"))] "resp4")
      (by decide) rfl rfl rfl rfl rfl).1,
   (c4_generate_only gW4 cW4 fW4 "hi" none "m" (.pobj [("output", .ok (.pstr "out-text"))] "resp4")
      (by decide) rfl rfl rfl rfl rfl).2.1 "out-text" rfl⟩

/-- C6: a POST /api/chat whose message trims to empty (including an absent
message) yields status 400 with the no-message body, leaves the globals (and
so the conversation store) untouched, makes no adapter call, and attempts no
shape. -/
theorem c6_empty_message (g : Globals) (now : String) (dm dcid : Option String)
    (h : pyStrip (dm.getD "") = "") :
    api_chat g now dm dcid
      = ⟨400, .pdict [("error", .pstr "no message provided")], g, false, []⟩ := by
  simp [api_chat, h]

/-- C6 and C9 witness globals: no SDK and a pre-existing conversation. -/
def gW6 : Globals := ⟨none, none, "m", [("c0", [⟨"user", .pstr "old"⟩])]⟩

/-- C6 witness: the validation theorem applied at a whitespace message. -/
theorem c6_empty_message_witness :
    pyStrip ((some "   ").getD "") = "" ∧
    api_chat gW6 "T" (some "   ") none
      = ⟨400, .pdict [("error", .pstr "no message provided")], gW6, false, []⟩ :=
  ⟨rfl, c6_empty_message gW6 "T" (some "   ") none rfl⟩

/-- C7: the echo endpoint replies You said: message for a non-empty message
and the fixed please-send reply for an absent or empty one (endpoint modelled
from the spec, its source file not being under src/). -/
theorem c7_echo (m : String) (hm : m ≠ "") :
    echo_chat (some m) = .pdict [("reply", .pstr ("You said: " ++ m))] ∧
    echo_chat none = .pdict [("reply", .pstr "Please send me a message.")] ∧
    echo_chat (some "") = .pdict [("reply", .pstr "Please send me a message.")] := by
  refine ⟨?_, rfl, by simp [echo_chat]⟩
  simp [echo_chat, hm]

/-- C7 witness: the echo theorem applied at the message hello. -/
theorem c7_echo_witness :
    ("hello" : String) ≠ "" ∧
    echo_chat (some "hello") = .pdict [("reply", .pstr ("You said: " ++ "hello"))] :=
  ⟨by decide, (c7_echo "hello" (by decide)).1⟩

/-- C9: when the adapter fails (reply None) on a non-empty message, POST
/api/chat returns status 500 with the Gemini-request-failed error body and
the globals — in particular the conversation log — are completely
unchanged. -/
theorem c9_failure_no_append (g : Globals) (now : String) (dm dcid : Option String)
    (hmsg : pyStrip (dm.getD "") ≠ "")
    (hfail : (call_gemini_core g.genai (pyStrip (dm.getD ""))
        (some (effectiveCid dcid now)) g.default_model).1.1 = .pnone) :
    (api_chat g now dm dcid).status = 500 ∧
    (api_chat g now dm dcid).g = g ∧
    (api_chat g now dm dcid).body
      = .pdict [("error", .pstr ("Gemini request failed: "
          ++ geminiErrReason (call_gemini_core g.genai (pyStrip (dm.getD ""))
               (some (effectiveCid dcid now)) g.default_model).1.2))] := by
  refine ⟨?_, ?_, ?_⟩ <;>
    simp [api_chat, call_gemini, hmsg, hfail, pyIsNone]

/-- C9 witness: the failure theorem applied with the SDK module absent. -/
theorem c9_failure_no_append_witness :
    pyStrip ((some "hi").getD "") ≠ "" ∧
    (api_chat gW6 "T" (some "hi") none).status = 500 ∧
    (api_chat gW6 "T" (some "hi") none).g = gW6 :=
  ⟨by decide,
   (c9_failure_no_append gW6 "T" (some "hi") none (by decide) rfl).1,
   (c9_failure_no_append gW6 "T" (some "hi") none (by decide) rfl).2.1⟩

/-- C5: on every successful POST /api/chat (status 200), exactly one user
turn followed by one assistant turn is appended to the effective
conversation, in that order, and every other conversation in the store is
unchanged. -/
theorem c5_success_appends (g : Globals) (now : String) (dm dcid : Option String)
    (h200 : (api_chat g now dm dcid).status = 200) :
    lookupStore (api_chat g now dm dcid).g.conversations (effectiveCid dcid now)
      = some ((lookupStore g.conversations (effectiveCid dcid now)).getD []
          ++ [⟨"user", .pstr (pyStrip (dm.getD ""))⟩,
              ⟨"assistant", replyField (api_chat g now dm dcid).body⟩]) ∧
    (∀ k, k ≠ effectiveCid dcid now →
      lookupStore (api_chat g now dm dcid).g.conversations k
        = lookupStore g.conversations k) := by
  by_cases hmsg : pyStrip (dm.getD "") = ""
  · exfalso
    simp [api_chat, hmsg] at h200
  · by_cases hrep : pyIsNone (call_gemini_core g.genai (pyStrip (dm.getD ""))
        (some (effectiveCid dcid now)) g.default_model).1.1 = true
    · exfalso
      simp [api_chat, call_gemini, hmsg, hrep] at h200
    · constructor
      · simp only [api_chat, call_gemini, hmsg, hrep, if_neg, if_false, ite_false,
          Bool.not_eq_true]
        rw [lookupStore_appendTurn_self, lookupStore_appendTurn_self]
        simp [replyField, List.append_assoc]
      · intro k hk
        simp only [api_chat, call_gemini, hmsg, hrep, if_neg, if_false, ite_false,
          Bool.not_eq_true]
        rw [lookupStore_appendTurn_other _ _ _ _ hk, lookupStore_appendTurn_other _ _ _ _ hk]

/-- Generate call of the C5 witness client. -/
def fW5 : String → String → Except String PyVal := fun _ _ => .ok (.pstr "resp5")

/-- C5 witness client. -/
def cW5 : GenaiClient := ⟨none, none, some fW5⟩

/-- C5 witness globals, holding an unrelated pre-existing conversation. -/
def gW5c : Globals := ⟨some cW5, some "k", "m", [("c9", [⟨"user", .pstr "old"⟩])]⟩

/-- C5 witness: the append theorem applied at a concrete successful request,
also checking the frame at an unrelated key. -/
theorem c5_success_appends_witness :
    (api_chat gW5c "T0" (some "hi") (some "c1")).status = 200 ∧
    lookupStore (api_chat gW5c "T0" (some "hi") (some "c1")).g.conversations
        (effectiveCid (some "c1") "T0")
      = some ((lookupStore gW5c.conversations (effectiveCid (some "c1") "T0")).getD []
          ++ [⟨"user", .pstr (pyStrip ((some "hi").getD ""))⟩,
              ⟨"assistant", replyField (api_chat gW5c "T0" (some "hi") (some "c1")).body⟩]) ∧
    lookupStore (api_chat gW5c "T0" (some "hi") (some "c1")).g.conversations "other"
      = lookupStore gW5c.conversations "other" :=
  ⟨rfl,
   (c5_success_appends gW5c "T0" (some "hi") (some "c1") rfl).1,
   (c5_success_appends gW5c "T0" (some "hi") (some "c1") rfl).2 "other" (by decide)⟩

end Genie
